import Mathlib

/-!
Shallow embedding of the jsonrpc-server WebSocket RPC framework
(src/server.py): the reflection step that classifies declaratively tagged
members of a ServiceInterface subclass, the dispatch table populated by
RPC.register_interface, the property meta-methods Property.Get /
Property.Set / Property.GetAll, Introspectable.Introspect, the per-interface
signal bus with its add / remove cascade, and signal broadcast.
-/

set_option autoImplicit false

namespace Server

/-- Peers (connected WebSocket handles) are identified by connection
identity; we model them as natural numbers. -/
abbrev Peer := Nat

/-- A runtime value of the embedded Python fragment.  `callable` stands for
a bound method or function object, `objRef` for any other non-JSON object
(a Dispatcher, a dict, a set, a list). -/
inductive Value where
  | int (n : Int)
  | str (s : String)
  | pyNone
  | callable (name : String)
  | objRef (name : String)
deriving DecidableEq

/-- Python exceptions raised on the embedded code paths: a dict lookup miss
(unknown interface name), a getattr miss or a set on a read-only attribute,
and getattr called with a non-string attribute name. -/
inductive PyErr where
  | keyError
  | attributeError
  | typeError
deriving DecidableEq

/-! ### Capability descriptors (the _Method / _Signal / _Property tags) -/

/-- The _Method tag attached by the @method decorator: the published name of
the member (the handler function itself is kept abstract). -/
structure MethodD where
  name : String
deriving DecidableEq

/-- The _Signal tag attached by the @signal decorator. -/
structure SignalD where
  name : String
deriving DecidableEq

/-- A _Property descriptor: its published name, the identity of its getter
function (`fget`, the dedup key used by ServiceInterface.__init__), and
whether a setter is attached. -/
structure PropD where
  name : String
  fget : Nat
  hasSetter : Bool
deriving DecidableEq

/-- One member returned by inspect.getmembers over the interface class:
either it carries exactly one of the three RPC tags, or it is an untagged
member (dunder methods, the ServiceInterface helpers), which the
classification loop skips. -/
inductive Member where
  | method (m : MethodD)
  | signal (s : SignalD)
  | prop (p : PropD)
  | plain
deriving DecidableEq

/-- The accumulating state of the member loop in ServiceInterface.__init__:
the ordered lists self.__methods, self.__signals, self.__properties, and the
set self.__properties_getters of getter identities already seen (modelled as
a list with membership semantics). -/
structure ClassifyState where
  methods : List MethodD
  signals : List SignalD
  properties : List PropD
  propGetters : List Nat
deriving DecidableEq

/-- One iteration of the member loop of ServiceInterface.__init__: a
member tagged __RPC_METHOD is appended to the methods list, one tagged
__RPC_SIGNAL to the signals list; one tagged __RPC_PROPERTY is skipped when
its fget is already in __properties_getters and otherwise recorded in that
set and appended to the properties list; untagged members are ignored. -/
def classifyStep (st : ClassifyState) (mem : Member) : ClassifyState :=
  match mem with
  | .method m => { st with methods := st.methods ++ [m] }
  | .signal s => { st with signals := st.signals ++ [s] }
  | .prop p =>
      if p.fget ∈ st.propGetters then st
      else { st with properties := st.properties ++ [p],
                     propGetters := st.propGetters ++ [p.fget] }
  | .plain => st

/-- The full member loop of ServiceInterface.__init__, starting from the
four empty containers. -/
def classifyMembers (mems : List Member) : ClassifyState :=
  List.foldl classifyStep ⟨[], [], [], []⟩ mems

/-- The members of class TimeService as enumerated by
inspect.getmembers(type(self)) in sorted name order: the untagged members
(dunders and the ServiceInterface helpers, all without an RPC tag) appear as
`.plain`; then alarm_clock (signal), alarm_delay (property, getter identity
0, with setter), set_alarm and time (methods). -/
def tsMembers : List Member :=
  [.plain,
   .signal ⟨"alarm_clock"⟩,
   .prop ⟨"alarm_delay", 0, true⟩,
   .method ⟨"set_alarm"⟩,
   .method ⟨"time"⟩]

/-- RPC.register_interface: for every method descriptor of the interface,
the key interface.name + "." + method.name is added to the dispatcher map.
Signals and properties are never added.  We track the set of dispatch keys
(the dict keys of jsonrpc.Dispatcher); re-adding an existing key overwrites
its binding, which leaves key membership unchanged. -/
def register_interface (table : List String) (ifaceName : String)
    (methods : List MethodD) : List String :=
  List.foldl (fun t m => t ++ [ifaceName ++ "." ++ m.name]) table methods

/-! ### Python attribute access on the two concrete interface instances -/

/-- Lookup in an instance __dict__, modelled as an association list. -/
def dictLookup (d : List (String × Value)) (k : String) : Option Value :=
  match d with
  | [] => none
  | (k1, v1) :: rest => if k1 = k then some v1 else dictLookup rest k

/-- Assignment into an instance __dict__: overwrite the existing binding in
place, or append a new one. -/
def dictSet (d : List (String × Value)) (k : String) (v : Value) :
    List (String × Value) :=
  match d with
  | [] => [(k, v)]
  | (k1, v1) :: rest =>
      if k1 = k then (k, v) :: rest else (k1, v1) :: dictSet rest k v

/-- A TimeService instance: its instance __dict__. -/
structure TimeServiceObj where
  attrs : List (String × Value)
deriving DecidableEq

/-- The instance __dict__ of the TimeService object right after
construction: ServiceInterface.__init__ stores name and the name-mangled
capability containers, then TimeService.__init__ stores _alarm_delay = 1. -/
def tsInit : TimeServiceObj :=
  { attrs := [("name", .str "ee.arti.TimeService"),
              ("_ServiceInterface__methods", .objRef "list"),
              ("_ServiceInterface__properties", .objRef "list"),
              ("_ServiceInterface__signals", .objRef "list"),
              ("_ServiceInterface__bus", .objRef "set"),
              ("_alarm_delay", .int 1)] }

/-- The non-data class attributes reachable on a TimeService instance: its
own decorated members and the helpers inherited from ServiceInterface. -/
def tsClassCallables : List String :=
  ["time", "set_alarm", "alarm_clock",
   "_get_methods", "_get_properties", "_add_bus", "_remove_bus",
   "_handle_signal"]

/-- Python getattr on a TimeService instance.  The class declares exactly
one data descriptor, the property alarm_delay, whose getter returns
self._alarm_delay; data descriptors take precedence over the instance
__dict__, which in turn shadows the non-data class attributes (bound
methods); any other name raises AttributeError. -/
def tsGetattr (obj : TimeServiceObj) (attr : String) : Except PyErr Value :=
  if attr = "alarm_delay" then
    match dictLookup obj.attrs "_alarm_delay" with
    | some v => .ok v
    | none => .error .attributeError
  else
    match dictLookup obj.attrs attr with
    | some v => .ok v
    | none =>
        if attr ∈ tsClassCallables then .ok (.callable attr)
        else .error .attributeError

/-- Python setattr on a TimeService instance.  Writing alarm_delay runs the
property setter, which stores self._alarm_delay = value; writing any other
name is a plain instance __dict__ assignment, silently creating the
attribute when it did not exist. -/
def tsSetattr (obj : TimeServiceObj) (attr : String) (v : Value) :
    TimeServiceObj :=
  if attr = "alarm_delay" then { attrs := dictSet obj.attrs "_alarm_delay" v }
  else { attrs := dictSet obj.attrs attr v }

/-- The RPC (aggregator) instance: its instance __dict__. -/
structure RPCObj where
  attrs : List (String × Value)
deriving DecidableEq

/-- The instance __dict__ of the RPC object after construction:
ServiceInterface.__init__ stores name = "jrpc" and the mangled containers,
then RPC.__init__ stores dispatcher, interfaces and bus. -/
def rpcInit : RPCObj :=
  { attrs := [("name", .str "jrpc"),
              ("_ServiceInterface__methods", .objRef "list"),
              ("_ServiceInterface__properties", .objRef "list"),
              ("_ServiceInterface__signals", .objRef "list"),
              ("_ServiceInterface__bus", .objRef "set"),
              ("dispatcher", .objRef "Dispatcher"),
              ("interfaces", .objRef "dict"),
              ("bus", .objRef "set")] }

/-- The non-data class attributes reachable on the RPC instance. -/
def rpcClassCallables : List String :=
  ["register_interface", "get_prop", "set_prop", "get_all_props",
   "props_changed", "introspect",
   "_get_methods", "_get_properties", "_add_bus", "_remove_bus",
   "_handle_signal"]

/-- Python getattr on the RPC instance; the RPC class declares no property
data descriptors, so the instance __dict__ is consulted first, then the
class attributes. -/
def rpcGetattr (obj : RPCObj) (attr : String) : Except PyErr Value :=
  match dictLookup obj.attrs attr with
  | some v => .ok v
  | none =>
      if attr ∈ rpcClassCallables then .ok (.callable attr)
      else .error .attributeError

/-- Python setattr on the RPC instance: always a plain instance __dict__
assignment, since no class property intervenes. -/
def rpcSetattr (obj : RPCObj) (attr : String) (v : Value) : RPCObj :=
  { attrs := dictSet obj.attrs attr v }

/-- The mutable part of the registry reached by the property meta-methods:
the two interface instances registered by main(), keyed "jrpc" and
"ee.arti.TimeService" in self.interfaces. -/
structure Registry where
  rpc : RPCObj
  ts : TimeServiceObj
deriving DecidableEq

/-- The registry as built by main(): RPC() then
rpc.register_interface(TimeService()). -/
def Registry.start : Registry :=
  { rpc := rpcInit, ts := tsInit }

/-- RPC.get_prop, published as "jrpc.Property.Get": looks the interface up
in self.interfaces (a dict subscript, raising KeyError when the name is not
registered) and returns getattr(interface, property_name). -/
def get_prop (reg : Registry) (interface_name property_name : String) :
    Except PyErr Value :=
  if interface_name = "jrpc" then rpcGetattr reg.rpc property_name
  else if interface_name = "ee.arti.TimeService" then
    tsGetattr reg.ts property_name
  else .error .keyError

/-- RPC.set_prop, published as "jrpc.Property.Set": looks the interface up
in self.interfaces (KeyError when absent), runs
setattr(interface, property_name, value) and returns None. -/
def set_prop (reg : Registry) (interface_name property_name : String)
    (v : Value) : Except PyErr (Registry × Value) :=
  if interface_name = "jrpc" then
    .ok ({ reg with rpc := rpcSetattr reg.rpc property_name v }, .pyNone)
  else if interface_name = "ee.arti.TimeService" then
    .ok ({ reg with ts := tsSetattr reg.ts property_name v }, .pyNone)
  else .error .keyError

/-- A key as passed to getattr by RPC.get_all_props: the loop
`for key in interface._get_properties()` iterates over the _Property
descriptor objects themselves, not over their names, so `key` is a property
object, not a string. -/
inductive AttrKey where
  | str (s : String)
  | propObj (name : String)
deriving DecidableEq

/-- getattr on a TimeService instance with an AttrKey: Python getattr
demands a string attribute name and raises TypeError for a property
object. -/
def tsGetattrKey (obj : TimeServiceObj) (k : AttrKey) : Except PyErr Value :=
  match k with
  | .str s => tsGetattr obj s
  | .propObj _ => .error .typeError

/-- The list self.__properties of the TimeService instance (the result of
interface._get_properties()): the _Property descriptor objects collected by
the classification loop. -/
def ts_property_objs : List AttrKey :=
  (classifyMembers tsMembers).properties.map (fun p => AttrKey.propObj p.name)

/-- getattr on the RPC instance with an AttrKey, again TypeError for a
non-string attribute name. -/
def rpcGetattrKey (obj : RPCObj) (k : AttrKey) : Except PyErr Value :=
  match k with
  | .str s => rpcGetattr obj s
  | .propObj _ => .error .typeError

/-- The list self.__properties of the RPC instance: the RPC class declares
no rpc properties, so it is empty. -/
def rpc_property_objs : List AttrKey := []

/-- RPC.get_all_props, published as "jrpc.Property.GetAll": looks the
interface up in self.interfaces (KeyError when absent), then for each entry
of interface._get_properties() stores getattr(interface, key) in the result
dict under key — where key is the _Property descriptor object itself. -/
def get_all_props (reg : Registry) (interface_name : String) :
    Except PyErr (List (AttrKey × Value)) :=
  if interface_name = "jrpc" then
    rpc_property_objs.foldlM
      (fun acc key => (rpcGetattrKey reg.rpc key).map (fun v => acc ++ [(key, v)]))
      []
  else if interface_name = "ee.arti.TimeService" then
    ts_property_objs.foldlM
      (fun acc key => (tsGetattrKey reg.ts key).map (fun v => acc ++ [(key, v)]))
      []
  else .error .keyError

/-- One entry of the dict built by RPC.introspect for a registered
interface: the three member dicts. -/
structure InterfaceDescription where
  methods : List String
  signals : List String
  properties : List String
deriving DecidableEq

/-- The names registered in self.interfaces after main() has run:
RPC.__init__ registers the aggregator itself under "jrpc", then main()
registers the TimeService. -/
def registryNames : List String := ["jrpc", "ee.arti.TimeService"]

/-- RPC.introspect, published as "jrpc.Introspectable.Introspect": for every
name in self.interfaces it stores the literal dict
with empty "methods", "signals" and "properties" entries. -/
def introspect (interfaceNames : List String) :
    List (String × InterfaceDescription) :=
  interfaceNames.map (fun n => (n, ⟨[], [], []⟩))

/-! ### Signal broadcast -/

/-- The exact string sent by ServiceInterface._handle_signal to every peer
of the bus, copied character for character from the source. -/
def signalMessage : String :=
  "\x7b\"jsonrpc: \"2.0\", \"method\":\"a.signal.bla\", \"params\": [\"hello\"]\x7d"

/-- The observable outcome of one broadcast: the message text handed to
every send task, the peers a send task was created for, the peers whose
send succeeded, and the bus after every done-callback has run. -/
structure SignalOutcome where
  message : String
  sentTo : Finset Peer
  delivered : Finset Peer
  busAfter : Finset Peer
deriving DecidableEq

/-- ServiceInterface._handle_signal: iterates the interface bus set,
creating one independent send task per peer; every task sends the same
fixed string signalMessage — the sig and res arguments are received but
never used, exactly as in the source.  Each task gets a done-callback that
removes its peer from the bus when the send raised; sendOk tells which
sends succeed.  No exception reaches the caller. -/
def handle_signal (sig : SignalD) (res : Value) (bus : Finset Peer)
    (sendOk : Peer → Bool) : SignalOutcome :=
  { message := signalMessage
  , sentTo := bus
  , delivered := bus.filter (fun p => sendOk p = true)
  , busAfter := bus \ bus.filter (fun p => sendOk p = false) }

/-- The body of TimeService.alarm_clock: prints and returns "ALARM". -/
def alarm_clock_body : Value := .str "ALARM"

/-- The wrapper installed by the @signal decorator around alarm_clock: the
body runs first and produces the result, then _handle_signal receives the
signal descriptor and that result, and the result is returned to the
caller regardless of any delivery failure. -/
def alarm_clock_fire (bus : Finset Peer) (sendOk : Peer → Bool) :
    Value × SignalOutcome :=
  let result := alarm_clock_body
  (result, handle_signal ⟨"alarm_clock"⟩ result bus sendOk)

/-! ### The bus add / remove cascade on the aggregator -/

/-- The three bus sets of the running program: RPC.bus (the attribute set
in RPC.__init__), the inherited ServiceInterface bus of the RPC instance
(self.__bus, the set _handle_signal iterates for aggregator signals), and
the ServiceInterface bus of the TimeService instance. -/
structure RPCBusState where
  rpcBus : Finset Peer
  rpcIfaceBus : Finset Peer
  tsIfaceBus : Finset Peer
deriving DecidableEq

/-- All three bus sets are empty before any peer connects. -/
def freshBusState : RPCBusState := ⟨∅, ∅, ∅⟩

/-- RPC._add_bus: adds the peer to self.bus, then walks
self.interfaces.values() — for the aggregator itself it calls
super()._add_bus (adding to the inherited self.__bus), for the TimeService
it calls interface._add_bus. -/
def rpc_add_bus (st : RPCBusState) (p : Peer) : RPCBusState :=
  { rpcBus := insert p st.rpcBus
  , rpcIfaceBus := insert p st.rpcIfaceBus
  , tsIfaceBus := insert p st.tsIfaceBus }

/-- RPC._remove_bus: self.bus.remove(ws) (set.remove raises KeyError when
the peer is absent), then walks self.interfaces.values() — for the
aggregator itself the source calls super()._add_bus(ws), adding the peer
back to the inherited self.__bus rather than removing it, and for the
TimeService it calls interface._remove_bus(ws) (again KeyError when
absent).  The Option result is none when a KeyError is raised. -/
def rpc_remove_bus (st : RPCBusState) (p : Peer) : Option RPCBusState :=
  if p ∈ st.rpcBus then
    if p ∈ st.tsIfaceBus then
      some { rpcBus := st.rpcBus.erase p
           , rpcIfaceBus := insert p st.rpcIfaceBus
           , tsIfaceBus := st.tsIfaceBus.erase p }
    else none
  else none

/-! ### Helper lemmas -/

/-- Reading back the key just written into an instance dict. -/
theorem dictLookup_dictSet (d : List (String × Value)) (k : String) (v : Value) :
    dictLookup (dictSet d k v) k = some v := by
  induction d with
  | nil => simp [dictSet, dictLookup]
  | cons hd rest ih =>
    obtain ⟨k1, v1⟩ := hd
    by_cases h : k1 = k
    · simp [dictSet, dictLookup, h]
    · simp [dictSet, dictLookup, h, ih]

/-- Invariant of the classification loop: the properties collected so far
have pairwise distinct getters, and every collected getter is recorded in
the dedup set. -/
theorem classify_foldl_getter_inv (mems : List Member) (st : ClassifyState)
    (h1 : List.Pairwise (fun p q => p.fget ≠ q.fget) st.properties)
    (h2 : ∀ p ∈ st.properties, p.fget ∈ st.propGetters) :
    List.Pairwise (fun p q => p.fget ≠ q.fget)
        (List.foldl classifyStep st mems).properties ∧
      ∀ p ∈ (List.foldl classifyStep st mems).properties,
        p.fget ∈ (List.foldl classifyStep st mems).propGetters := by
  induction mems generalizing st with
  | nil => exact ⟨h1, h2⟩
  | cons m rest ih =>
    rw [List.foldl_cons]
    cases m with
    | method md => exact ih _ h1 h2
    | signal sd => exact ih _ h1 h2
    | plain => exact ih _ h1 h2
    | prop p =>
      by_cases hp : p.fget ∈ st.propGetters
      · rw [show classifyStep st (.prop p) = st by simp [classifyStep, hp]]
        exact ih _ h1 h2
      · rw [show classifyStep st (.prop p) =
              { st with properties := st.properties ++ [p],
                        propGetters := st.propGetters ++ [p.fget] } by
            simp [classifyStep, hp]]
        apply ih
        · rw [List.pairwise_append]
          refine ⟨h1, List.pairwise_singleton _ _, ?_⟩
          intro a ha b hb
          rw [List.mem_singleton] at hb
          subst hb
          intro he
          exact hp (he ▸ h2 a ha)
        · intro q hq
          rw [List.mem_append] at hq
          rcases hq with hq | hq
          · exact List.mem_append_left _ (h2 q hq)
          · rw [List.mem_singleton] at hq
            subst hq
            exact List.mem_append_right _ (List.mem_singleton_self _)

/-- Key membership in the dispatch table after RPC.register_interface: the
keys are the previous ones plus one qualified key per method descriptor. -/
theorem register_interface_mem (t : List String) (n : String)
    (ms : List MethodD) (k : String) :
    k ∈ register_interface t n ms ↔
      k ∈ t ∨ ∃ m ∈ ms, k = n ++ "." ++ m.name := by
  induction ms generalizing t with
  | nil => simp [register_interface]
  | cons m rest ih =>
    have h := ih (t ++ [n ++ "." ++ m.name])
    simp only [register_interface, List.foldl_cons] at h ⊢
    rw [h, List.mem_append, List.mem_singleton]
    constructor
    · rintro ((hk | hk) | ⟨m1, hm1, hk⟩)
      · exact Or.inl hk
      · exact Or.inr ⟨m, List.mem_cons_self _ _, hk⟩
      · exact Or.inr ⟨m1, List.mem_cons_of_mem _ hm1, hk⟩
    · rintro (hk | ⟨m1, hm1, hk⟩)
      · exact Or.inl (Or.inl hk)
      · rcases List.mem_cons.mp hm1 with rfl | hm1
        · exact Or.inl (Or.inr hk)
        · exact Or.inr ⟨m1, hm1, hk⟩

/-! ### The claims -/

/-- C1: the handler body does run first and its result is returned, and one
notification is sent to exactly the peers of the bus snapshot — but the
notification does not carry the qualified signal name and the result: every
broadcast, for every signal of every interface, sends the same fixed
placeholder string, which contains neither the qualified name
"ee.arti.TimeService.alarm_clock" nor the result "ALARM" of the concrete
firing. -/
theorem signal_notification_is_fixed_placeholder :
    (∀ sig res bus sendOk,
        (handle_signal sig res bus sendOk).message = signalMessage) ∧
      (alarm_clock_fire {0} (fun _ => true)).1 = alarm_clock_body ∧
      (alarm_clock_fire {0} (fun _ => true)).2.sentTo = {0} ∧
      (alarm_clock_fire {0} (fun _ => true)).2.message = signalMessage ∧
      ¬ ("ee.arti.TimeService.alarm_clock".data <:+: signalMessage.data) ∧
      ¬ ("ALARM".data <:+: signalMessage.data) := by
  refine ⟨fun _ _ _ _ => rfl, rfl, rfl, rfl, by decide, by decide⟩

/-- C2: evaluating the bus cascade at a peer that connects and then
disconnects before any signal fires: the peer is gone from RPC.bus and from
the TimeService bus, but RPC._remove_bus calls super()._add_bus for the
aggregator itself, so the peer stays in the aggregator interface own bus —
the remove path is not the mirror of the add path. -/
theorem remove_bus_keeps_peer_in_aggregator_bus :
    rpc_remove_bus (rpc_add_bus freshBusState 7) 7 = some ⟨∅, {7}, ∅⟩ := by
  decide

/-- C3: Property.GetAll on the TimeService raises TypeError, because the
loop iterates the _Property descriptor objects of the interface (not their
names) and hands them to getattr; and an unknown interface name raises a
bare KeyError, not an InterfaceNotFound protocol error — even though the
interface does declare the property list ["alarm_delay"]. -/
theorem get_all_props_raises_type_error :
    get_all_props Registry.start "ee.arti.TimeService" = .error .typeError ∧
      get_all_props Registry.start "no.such.Interface" = .error .keyError ∧
      (classifyMembers tsMembers).properties.map PropD.name = ["alarm_delay"] := by
  exact ⟨rfl, rfl, rfl⟩

/-- C4: Property.Set with a property name that does not exist on the
interface does not fail at all: setattr silently creates the attribute and
the call returns None, and the value can then be read back — although the
name is not among the declared properties; an unknown interface name
raises a bare KeyError, not an InterfaceNotFound protocol error. -/
theorem set_prop_missing_property_silently_succeeds :
    (set_prop Registry.start "ee.arti.TimeService" "brightness" (.int 5)).map
        (fun p => get_prop p.1 "ee.arti.TimeService" "brightness") =
      .ok (.ok (.int 5)) ∧
      "brightness" ∉ (classifyMembers tsMembers).properties.map PropD.name ∧
      set_prop Registry.start "no.such.Interface" "alarm_delay" (.int 0) =
        .error .keyError := by
  refine ⟨rfl, by decide, rfl⟩

/-- C5: Property.Get reaches every attribute of the interface instance, not
only declared properties: reading "name" (not a declared property) returns
its value instead of failing with PropertyNotFound; an unknown interface
raises a bare KeyError and an absent attribute a bare AttributeError —
neither an InterfaceNotFound nor a PropertyNotFound protocol error exists
in the code. -/
theorem get_prop_error_reporting :
    get_prop Registry.start "ee.arti.TimeService" "name" =
        .ok (.str "ee.arti.TimeService") ∧
      "name" ∉ (classifyMembers tsMembers).properties.map PropD.name ∧
      get_prop Registry.start "no.such.Interface" "alarm_delay" =
        .error .keyError ∧
      get_prop Registry.start "ee.arti.TimeService" "volume" =
        .error .attributeError := by
  refine ⟨rfl, by decide, rfl, rfl⟩

/-- C6: when exactly one peer of the bus fails its send during a broadcast,
the delivered set is the bus minus that peer (so the other N-1 peers all
receive the notification), the failing peer is removed from the bus by its
done-callback, and the code path that fired the signal still receives the
handler result unchanged. -/
theorem broadcast_failure_isolated (sig : SignalD) (res : Value)
    (bus : Finset Peer) (sendOk : Peer → Bool) (f : Peer)
    (hf : f ∈ bus) (hfail : sendOk f = false)
    (hok : ∀ p ∈ bus, p ≠ f → sendOk p = true) :
    (handle_signal sig res bus sendOk).delivered = bus.erase f ∧
      (handle_signal sig res bus sendOk).delivered.card = bus.card - 1 ∧
      f ∉ (handle_signal sig res bus sendOk).busAfter ∧
      (alarm_clock_fire bus sendOk).1 = alarm_clock_body := by
  have hdel : (handle_signal sig res bus sendOk).delivered = bus.erase f := by
    ext p
    simp only [handle_signal, Finset.mem_filter, Finset.mem_erase]
    constructor
    · rintro ⟨hp, hs⟩
      refine ⟨?_, hp⟩
      rintro rfl
      rw [hfail] at hs
      exact Bool.false_ne_true hs
    · rintro ⟨hne, hp⟩
      exact ⟨hp, hok p hp hne⟩
  refine ⟨hdel, ?_, ?_, rfl⟩
  · rw [hdel, Finset.card_erase_of_mem hf]
  · simp [handle_signal, Finset.mem_sdiff, Finset.mem_filter, hf, hfail]

/-- Witness for C6: a bus of three peers in which exactly peer 1 fails. -/
theorem broadcast_failure_isolated_witness :
    (handle_signal ⟨"alarm_clock"⟩ (Value.str "ALARM") {0, 1, 2}
        (fun p => p != 1)).delivered = ({0, 1, 2} : Finset Peer).erase 1 ∧
      (handle_signal ⟨"alarm_clock"⟩ (Value.str "ALARM") {0, 1, 2}
        (fun p => p != 1)).delivered.card =
        ({0, 1, 2} : Finset Peer).card - 1 ∧
      1 ∉ (handle_signal ⟨"alarm_clock"⟩ (Value.str "ALARM") {0, 1, 2}
        (fun p => p != 1)).busAfter ∧
      (alarm_clock_fire {0, 1, 2} (fun p => p != 1)).1 = alarm_clock_body :=
  broadcast_failure_isolated ⟨"alarm_clock"⟩ (Value.str "ALARM") {0, 1, 2}
    (fun p => p != 1) 1 (by decide) (by decide) (by decide)

/-- C7: writing the writable property alarm_delay through Property.Set and
reading it back through Property.Get returns the value just written, from
any registry state. -/
theorem get_after_set_roundtrip (reg : Registry) (v : Value) :
    (set_prop reg "ee.arti.TimeService" "alarm_delay" v).map
      (fun p => get_prop p.1 "ee.arti.TimeService" "alarm_delay") =
      Except.ok (Except.ok v) := by
  have h := dictLookup_dictSet reg.ts.attrs "_alarm_delay" v
  show Except.ok
      (match dictLookup (dictSet reg.ts.attrs "_alarm_delay" v) "_alarm_delay" with
        | some w => Except.ok w
        | none => Except.error PyErr.attributeError) = Except.ok (Except.ok v)
  rw [h]

/-- C8: Introspectable.Introspect does list every registered interface name,
but maps each one to empty methods, signals and properties dicts — pure
placeholders — although the TimeService declares the methods set_alarm and
time and the signal alarm_clock. -/
theorem introspect_returns_empty_placeholders :
    (introspect registryNames).map Prod.fst = registryNames ∧
      (∀ e ∈ introspect registryNames,
        e.2.methods = [] ∧ e.2.signals = [] ∧ e.2.properties = []) ∧
      (classifyMembers tsMembers).methods.map MethodD.name =
        ["set_alarm", "time"] ∧
      (classifyMembers tsMembers).signals.map SignalD.name = ["alarm_clock"] := by
  refine ⟨rfl, by decide, rfl, rfl⟩

/-- C9: however often the reflection step rediscovers the same getter, the
property list built by the classification loop of ServiceInterface.__init__
never holds two descriptors with the same getter identity. -/
theorem property_list_getters_distinct (mems : List Member) :
    List.Pairwise (fun p q => p.fget ≠ q.fget)
      (classifyMembers mems).properties :=
  (classify_foldl_getter_inv mems ⟨[], [], [], []⟩ (List.Pairwise.nil)
    (fun p hp => absurd hp (List.not_mem_nil p))).1

/-- C10: a key is in the dispatch table after registering an interface
exactly when it was already there or is the qualified name of one of the
method-tagged members the reflection step collected; signal-tagged and
property-tagged members contribute no key. -/
theorem dispatch_keys_exactly_methods (t : List String) (mems : List Member)
    (n k : String) :
    k ∈ register_interface t n (classifyMembers mems).methods ↔
      k ∈ t ∨ ∃ m ∈ (classifyMembers mems).methods, k = n ++ "." ++ m.name :=
  register_interface_mem t n _ k

end Server
